import Mathlib

/-!
Verification of the Listify multi-metric evaluation engine
(backend/evaluations/listify_evaluators.py and
backend/evaluations/listify_evaluators_with_tracing.py).

The engine's decision logic is embedded shallowly: Python floats become
rationals, Python dicts become association lists over a small JSON-like
value type, and the fallible judge interaction becomes an Except value.
-/

namespace Listify

/-- Shallow embedding of the Python/JSON values that appear in item records
and judge responses. Conversion of numeric strings by float is not modelled;
the judge protocol returns JSON numbers for scores. -/
inductive PyValue where
  | pnone : PyValue
  | pstr : String → PyValue
  | pnum : ℚ → PyValue
  | pbool : Bool → PyValue
  | plist : List PyValue → PyValue
  | pdict : List (String × PyValue) → PyValue

/-- Python truthiness of a value. -/
def PyValue.truthy : PyValue → Bool
  | .pnone => false
  | .pstr s => decide (s ≠ "")
  | .pnum q => decide (q ≠ 0)
  | .pbool b => b
  | .plist xs => !xs.isEmpty
  | .pdict d => !d.isEmpty

/-- Python isinstance(v, str). -/
def PyValue.isStr : PyValue → Bool
  | .pstr _ => true
  | _ => false

/-- A Python dict with string keys, as an association list. Keys are unique
in every dict the engine builds or receives; lookup returns the first
binding, matching dict semantics. -/
abbrev JObj := List (String × PyValue)

/-- An extracted item record. -/
abbrev Item := JObj

/-- Dictionary lookup: the value at key k, if the key is present. -/
def dictGet (d : JObj) (k : String) : Option PyValue :=
  match d.find? (fun p => p.1 == k) with
  | some p => some p.2
  | none => none

/-- Python membership test: k in d. -/
def hasKey (d : JObj) (k : String) : Bool :=
  (dictGet d k).isSome

/-- Category Registry: the evaluator's fixed list of valid category labels
(self.valid_categories). -/
def valid_categories : List String :=
  ["groceries", "tasks", "contacts", "events",
   "inventory", "ideas", "recipes", "shopping",
   "bills", "other"]

/-- Python str.strip: leading and trailing whitespace removed. -/
def py_strip (s : String) : String :=
  String.mk (((s.data.dropWhile Char.isWhitespace).reverse.dropWhile Char.isWhitespace).reverse)

/-- Chained condition on item_name from _validate_structure_programmatic:
key present, value truthy, a string, and non-blank after stripping. A
non-string value fails the isinstance conjunct, so only non-empty strings
with non-blank strip pass. -/
def name_value_ok : Option PyValue → Bool
  | some (PyValue.pstr s) => decide (s ≠ "") && decide (py_strip s ≠ "")
  | some _ => false
  | none => false

/-- Condition on the item_name field of an item. -/
def nameOk (item : Item) : Bool :=
  name_value_ok (dictGet item "item_name")

/-- Membership test item.category in valid_categories: only a string value
can equal one of the registry labels. -/
def category_in_registry : PyValue → Bool
  | PyValue.pstr s => valid_categories.contains s
  | _ => false

/-- Credit and check count contributed by the category field. As in the
source's nested if, the check is only counted (and credit only awarded) when
the key is present with a truthy value. -/
def category_step : Option PyValue → ℚ × Nat
  | some v =>
    if v.truthy then ((if category_in_registry v then 4/10 else 0), 1)
    else (0, 0)
  | none => (0, 0)

/-- Type condition on quantity and notes: absent, None, or a string. -/
def optional_text_ok : Option PyValue → Bool
  | none => true
  | some PyValue.pnone => true
  | some (PyValue.pstr _) => true
  | some _ => false

/-- Per-item credit and number of counted checks, mirroring the loop body of
_validate_structure_programmatic: 0.4 for a usable item_name (check always
counted), 0.4 for a registry category (check counted only when the key is
present with a truthy value), 0.1 each for quantity and notes being
absent/None/text (checks always counted). -/
def item_score_checks (item : Item) : ℚ × Nat :=
  let name_credit : ℚ := if nameOk item then 4/10 else 0
  let cat := category_step (dictGet item "category")
  let quantity_credit : ℚ := if optional_text_ok (dictGet item "quantity") then 1/10 else 0
  let notes_credit : ℚ := if optional_text_ok (dictGet item "notes") then 1/10 else 0
  (name_credit + cat.1 + quantity_credit + notes_credit, 1 + cat.2 + 1 + 1)

/-- Contribution of one item to total_score: item_score / checks, guarded by
checks > 0 as in the source. -/
def item_contribution (item : Item) : ℚ :=
  let p := item_score_checks item
  if 0 < p.2 then p.1 / (p.2 : ℚ) else 0

/-- Embedding of ListifyEvaluator._validate_structure_programmatic: 0 for an
empty list, otherwise the mean of the per-item contributions. -/
def validate_structure_programmatic (items : List Item) : ℚ :=
  if items.isEmpty then 0
  else (items.map item_contribution).sum / (items.length : ℚ)

/-- Embedding of the EvaluationResult dataclass. Scores are rationals; the
source uses Python floats and only decimal constants. -/
structure EvaluationResult where
  score : ℚ
  passed : Bool
  confidence : ℚ
  explanation : String
  details : JObj

/-- Overall result built by ListifyEvaluator.evaluate_all from the three
metric results, in fixed order extraction accuracy / structure compliance /
content quality with weights 0.4 / 0.3 / 0.3. At the point the overall
result is constructed the results dict holds exactly the three metric
entries, so the confidence mean and all_passed range over those three. The
numeric rendering inside the explanation string is elided. -/
def evaluate_all_overall (threshold : ℚ)
    (ea sc cq : EvaluationResult) : EvaluationResult :=
  let overall_score : ℚ :=
    ea.score * (4/10) + sc.score * (3/10) + cq.score * (3/10)
  { score := overall_score
    passed := decide (threshold ≤ overall_score)
    confidence := (ea.confidence + sc.confidence + cq.confidence) / 3
    explanation := "Overall score (weighted average)"
    details :=
      [("weighted_scores", PyValue.pdict
          [("extraction_accuracy", PyValue.pnum (ea.score * (4/10))),
           ("structure_compliance", PyValue.pnum (sc.score * (3/10))),
           ("content_quality", PyValue.pnum (cq.score * (3/10)))]),
       ("all_passed", PyValue.pbool (ea.passed && sc.passed && cq.passed))] }

/-- Overall result built by ListifyEvaluatorWithTracing.evaluate_all. The
weighted score, confidence mean and all_passed detail match the base
evaluator, but the passed flag is set to all_passed, the conjunction of the
three metric passed flags, not to a threshold comparison (the instance's
threshold is not consulted). -/
def evaluate_all_overall_tracing (ea sc cq : EvaluationResult) : EvaluationResult :=
  let overall_score : ℚ :=
    ea.score * (4/10) + sc.score * (3/10) + cq.score * (3/10)
  let all_passed : Bool := ea.passed && sc.passed && cq.passed
  { score := overall_score
    passed := all_passed
    confidence := (ea.confidence + sc.confidence + cq.confidence) / 3
    explanation := "Overall score (weighted average)"
    details :=
      [("weighted_scores", PyValue.pdict
          [("extraction_accuracy", PyValue.pnum (ea.score * (4/10))),
           ("structure_compliance", PyValue.pnum (sc.score * (3/10))),
           ("content_quality", PyValue.pnum (cq.score * (3/10)))]),
       ("all_passed", PyValue.pbool all_passed)] }

/-- Required key lookup on the parsed judge response; a missing key raises
KeyError in the source, which the surrounding try/except turns into the
conservative failure result. -/
def j_required (d : JObj) (k : String) : Except String PyValue :=
  match dictGet d k with
  | some v => Except.ok v
  | none => Except.error ("KeyError: " ++ k)

/-- Embedding of float(...) applied to a judge-supplied value. Numbers and
bools convert; any other value fails and lands in the except branch. -/
def py_float : PyValue → Except String ℚ
  | PyValue.pnum q => Except.ok q
  | PyValue.pbool b => Except.ok (if b then 1 else 0)
  | _ => Except.error "float conversion failed"

/-- Python result.get(k, default). -/
def j_get_default (d : JObj) (k : String) (v : PyValue) : PyValue :=
  (dictGet d k).getD v

/-- Display form of a judge-supplied explanation value; the source stores
the raw value and only strings occur in practice. -/
def py_repr : PyValue → String
  | PyValue.pstr s => s
  | PyValue.pnone => "None"
  | PyValue.pnum _ => "<number>"
  | PyValue.pbool b => if b then "True" else "False"
  | PyValue.plist _ => "<list>"
  | PyValue.pdict _ => "<dict>"

/-- Field accesses shared by the three evaluators inside the try block, in
source evaluation order: float of the required score field, float of the
confidence field with a metric-specific default, then the required
explanation field. Any failure propagates to the except branch. -/
def parse_score_conf_expl (result : JObj) (conf_default : ℚ) :
    Except String (ℚ × ℚ × String) := do
  let score_v ← j_required result "score"
  let score ← py_float score_v
  let conf ← py_float (j_get_default result "confidence" (PyValue.pnum conf_default))
  let expl_v ← j_required result "explanation"
  Except.ok (score, conf, py_repr expl_v)

/-- The conservative failure result every evaluator returns from its except
branch. -/
def conservative_result (e : String) : EvaluationResult :=
  { score := 0
    passed := false
    confidence := 0
    explanation := "Evaluation failed: " ++ e
    details := [] }

/-- Embedding of ListifyEvaluator.evaluate_extraction_accuracy as a function
of the judge interaction outcome: an error value models a failed remote call
or malformed JSON (json.loads raising); an ok value carries the parsed
response object. -/
def evaluate_extraction_accuracy (threshold : ℚ) (extracted_count : Nat)
    (resp : Except String JObj) : EvaluationResult :=
  match resp with
  | Except.error e => conservative_result e
  | Except.ok result =>
    match parse_score_conf_expl result (8/10) with
    | Except.error e => conservative_result e
    | Except.ok (score, conf, expl) =>
      { score := score
        passed := decide (threshold ≤ score)
        confidence := conf
        explanation := expl
        details :=
          [("completeness", j_get_default result "completeness" (PyValue.pdict [])),
           ("accuracy", j_get_default result "accuracy" (PyValue.pdict [])),
           ("strengths", j_get_default result "strengths" (PyValue.plist [])),
           ("weaknesses", j_get_default result "weaknesses" (PyValue.plist [])),
           ("extracted_count", PyValue.pnum (extracted_count : ℚ))] }

/-- Embedding of ListifyEvaluator.evaluate_structure_compliance: on judge
success, blends the judge score (70 percent) with the programmatic
validation score (30 percent) and exposes both sub-scores in details. -/
def evaluate_structure_compliance (threshold : ℚ) (extracted_items : List Item)
    (resp : Except String JObj) : EvaluationResult :=
  match resp with
  | Except.error e => conservative_result e
  | Except.ok result =>
    match parse_score_conf_expl result (9/10) with
    | Except.error e => conservative_result e
    | Except.ok (llm_score, conf, expl) =>
      let programmatic_score := validate_structure_programmatic extracted_items
      let combined_score := llm_score * (7/10) + programmatic_score * (3/10)
      { score := combined_score
        passed := decide (threshold ≤ combined_score)
        confidence := conf
        explanation := expl
        details :=
          [("structure_issues", j_get_default result "structure_issues" (PyValue.pdict [])),
           ("compliance_summary", j_get_default result "compliance_summary" (PyValue.pdict [])),
           ("category_usage", j_get_default result "category_usage" (PyValue.pdict [])),
           ("programmatic_score", PyValue.pnum programmatic_score),
           ("llm_score", PyValue.pnum llm_score),
           ("strengths", j_get_default result "strengths" (PyValue.plist [])),
           ("weaknesses", j_get_default result "weaknesses" (PyValue.plist []))] }

/-- Sub-score extraction in evaluate_content_quality's details, each via
float of result.get with default 0.5; a failure of any conversion lands in
the except branch. -/
def content_quality_extras (result : JObj) : Except String (ℚ × ℚ × ℚ × ℚ) := do
  let relevance ← py_float (j_get_default result "relevance_score" (PyValue.pnum (5/10)))
  let usefulness ← py_float (j_get_default result "usefulness_score" (PyValue.pnum (5/10)))
  let expl_quality ← py_float (j_get_default result "explanation_quality_score" (PyValue.pnum (5/10)))
  let cat_accuracy ← py_float (j_get_default result "categorization_accuracy_score" (PyValue.pnum (5/10)))
  Except.ok (relevance, usefulness, expl_quality, cat_accuracy)

/-- Embedding of ListifyEvaluator.evaluate_content_quality as a function of
the judge interaction outcome. -/
def evaluate_content_quality (threshold : ℚ)
    (resp : Except String JObj) : EvaluationResult :=
  match resp with
  | Except.error e => conservative_result e
  | Except.ok result =>
    match parse_score_conf_expl result (8/10) with
    | Except.error e => conservative_result e
    | Except.ok (score, conf, expl) =>
      match content_quality_extras result with
      | Except.error e => conservative_result e
      | Except.ok (relevance, usefulness, expl_quality, cat_accuracy) =>
        { score := score
          passed := decide (threshold ≤ score)
          confidence := conf
          explanation := expl
          details :=
            [("quality_analysis", j_get_default result "quality_analysis" (PyValue.pdict [])),
             ("relevance_score", PyValue.pnum relevance),
             ("usefulness_score", PyValue.pnum usefulness),
             ("explanation_quality_score", PyValue.pnum expl_quality),
             ("categorization_accuracy_score", PyValue.pnum cat_accuracy),
             ("strengths", j_get_default result "strengths" (PyValue.plist [])),
             ("weaknesses", j_get_default result "weaknesses" (PyValue.plist []))] }

/-- First item of the spec's end-to-end structural-validation scenario. -/
def milk_item : Item :=
  [("item_name", PyValue.pstr "Buy milk"),
   ("category", PyValue.pstr "groceries"),
   ("quantity", PyValue.pstr "2 gallons"),
   ("notes", PyValue.pstr "Prefer organic"),
   ("explanation", PyValue.pstr "Essential dairy product for daily nutrition")]

/-- Second item of the spec's end-to-end structural-validation scenario. -/
def dentist_item : Item :=
  [("item_name", PyValue.pstr "Call dentist"),
   ("category", PyValue.pstr "tasks"),
   ("quantity", PyValue.pnone),
   ("notes", PyValue.pstr "Schedule checkup"),
   ("explanation", PyValue.pstr "Routine dental appointment")]

/-- Whether the category check is counted for an item: the key must be
present with a truthy value (the source's nested if). -/
def category_counted (item : Item) : Bool :=
  match dictGet item "category" with
  | some v => v.truthy
  | none => false

/-- Item exhibiting an uncounted category check: the category key is present
but its value is None. -/
def null_category_item : Item :=
  [("item_name", PyValue.pstr "x"), ("category", PyValue.pnone)]

lemma category_step_cases (v : Option PyValue) :
    category_step v = (4/10, 1) ∨ category_step v = (0, 1) ∨ category_step v = (0, 0) := by
  cases v with
  | none => exact Or.inr (Or.inr rfl)
  | some w =>
    by_cases h : w.truthy = true
    · by_cases h2 : category_in_registry w = true
      · exact Or.inl (by simp [category_step, h, h2])
      · exact Or.inr (Or.inl (by simp [category_step, h, h2]))
    · exact Or.inr (Or.inr (by simp [category_step, h]))

lemma checks_pos (item : Item) : 0 < (item_score_checks item).2 := by
  simp only [item_score_checks]
  omega

lemma item_contribution_eq (item : Item) :
    item_contribution item = (item_score_checks item).1 / ((item_score_checks item).2 : ℚ) := by
  simp only [item_contribution]
  rw [if_pos (checks_pos item)]

lemma if_credit_nonneg (b : Bool) (q : ℚ) (hq : 0 ≤ q) :
    (0:ℚ) ≤ if b then q else 0 := by
  cases b <;> simp [hq]

lemma if_credit_le (b : Bool) (q : ℚ) (hq : 0 ≤ q) :
    (if b then q else 0) ≤ q := by
  cases b <;> simp [hq]

lemma category_credit_nonneg (v : Option PyValue) : 0 ≤ (category_step v).1 := by
  rcases category_step_cases v with h | h | h <;> rw [h] <;> norm_num

lemma item_contribution_nonneg (item : Item) : 0 ≤ item_contribution item := by
  have h1 := if_credit_nonneg (nameOk item) ((4:ℚ)/10) (by norm_num)
  have h2 := category_credit_nonneg (dictGet item "category")
  have h3 := if_credit_nonneg (optional_text_ok (dictGet item "quantity")) ((1:ℚ)/10) (by norm_num)
  have h4 := if_credit_nonneg (optional_text_ok (dictGet item "notes")) ((1:ℚ)/10) (by norm_num)
  rw [item_contribution_eq]
  apply div_nonneg
  · simp only [item_score_checks]
    linarith
  · positivity

lemma item_contribution_le_quarter (item : Item) : item_contribution item ≤ 1/4 := by
  have h1 := if_credit_nonneg (nameOk item) ((4:ℚ)/10) (by norm_num)
  have h1' := if_credit_le (nameOk item) ((4:ℚ)/10) (by norm_num)
  have h3 := if_credit_nonneg (optional_text_ok (dictGet item "quantity")) ((1:ℚ)/10) (by norm_num)
  have h3' := if_credit_le (optional_text_ok (dictGet item "quantity")) ((1:ℚ)/10) (by norm_num)
  have h4 := if_credit_nonneg (optional_text_ok (dictGet item "notes")) ((1:ℚ)/10) (by norm_num)
  have h4' := if_credit_le (optional_text_ok (dictGet item "notes")) ((1:ℚ)/10) (by norm_num)
  rw [item_contribution_eq]
  simp only [item_score_checks]
  rcases category_step_cases (dictGet item "category") with h | h | h <;> rw [h] <;> simp only []
  · rw [div_le_iff₀ (by norm_num)]
    push_cast
    linarith
  · rw [div_le_iff₀ (by norm_num)]
    push_cast
    linarith
  · rw [div_le_iff₀ (by norm_num)]
    push_cast
    linarith

lemma sum_contrib_nonneg (items : List Item) :
    0 ≤ (items.map item_contribution).sum := by
  induction items with
  | nil => simp
  | cons a t ih =>
    simp only [List.map_cons, List.sum_cons]
    have := item_contribution_nonneg a
    linarith

lemma sum_contrib_le (items : List Item) :
    (items.map item_contribution).sum ≤ (items.length : ℚ) * (1/4) := by
  induction items with
  | nil => simp
  | cons a t ih =>
    simp only [List.map_cons, List.sum_cons, List.length_cons]
    push_cast
    have := item_contribution_le_quarter a
    linarith

lemma validate_nonneg (items : List Item) :
    0 ≤ validate_structure_programmatic items := by
  rw [validate_structure_programmatic]
  split_ifs
  · norm_num
  · exact div_nonneg (sum_contrib_nonneg items) (by positivity)

lemma validate_le_quarter (items : List Item) :
    validate_structure_programmatic items ≤ 1/4 := by
  rw [validate_structure_programmatic]
  split_ifs with h
  · norm_num
  · have hne : items ≠ [] := by
      intro hh
      subst hh
      simp at h
    have hlen : 0 < items.length := List.length_pos.mpr hne
    rw [div_le_iff₀ (by exact_mod_cast hlen)]
    calc (items.map item_contribution).sum
        ≤ (items.length : ℚ) * (1/4) := sum_contrib_le items
      _ = 1/4 * (items.length : ℚ) := by ring

lemma validate_single (item : Item) :
    validate_structure_programmatic [item] = item_contribution item := by
  simp [validate_structure_programmatic]

lemma validate_milk_dentist :
    validate_structure_programmatic [milk_item, dentist_item] = 1/4 := by
  have h1 : nameOk milk_item = true := by decide
  have h2 : nameOk dentist_item = true := by decide
  have h3 : optional_text_ok (dictGet milk_item "quantity") = true := by decide
  have h4 : optional_text_ok (dictGet milk_item "notes") = true := by decide
  have h5 : optional_text_ok (dictGet dentist_item "quantity") = true := by decide
  have h6 : optional_text_ok (dictGet dentist_item "notes") = true := by decide
  have h7 : dictGet milk_item "category" = some (PyValue.pstr "groceries") := rfl
  have h8 : dictGet dentist_item "category" = some (PyValue.pstr "tasks") := rfl
  have h9 : (PyValue.pstr "groceries").truthy = true := by decide
  have h10 : (PyValue.pstr "tasks").truthy = true := by decide
  have h11 : category_in_registry (PyValue.pstr "groceries") = true := by decide
  have h12 : category_in_registry (PyValue.pstr "tasks") = true := by decide
  simp [validate_structure_programmatic, item_contribution, item_score_checks,
    category_step, h1, h2, h3, h4, h5, h6, h7, h8, h9, h10, h11, h12]
  norm_num

/-- C2: on the spec's two perfectly compliant items (Buy milk / Call
dentist), the Structural Validator alone returns exactly 0.25 — each item
earns the full credit 1.0 but it is divided by the 4 counted checks — so the
claimed score of at least 0.9 is unreachable. -/
theorem perfect_items_structural_score_quarter :
    validate_structure_programmatic [milk_item, dentist_item] = 1/4 ∧
    ¬ ((9:ℚ)/10 ≤ validate_structure_programmatic [milk_item, dentist_item]) := by
  refine ⟨validate_milk_dentist, ?_⟩
  rw [validate_milk_dentist]
  norm_num

/-- C3: for every item list the Structural Validator's score is at most
0.25: the per-item denominator is 3 or 4 checks, the awarded credit is at
most 1.0, so no item contributes more than 1/4 to the mean. -/
theorem structural_validator_score_capped (items : List Item) (item : Item) :
    validate_structure_programmatic items ≤ 1/4 ∧
    ((item_score_checks item).2 = 3 ∨ (item_score_checks item).2 = 4) ∧
    item_contribution item ≤ 1/4 := by
  refine ⟨validate_le_quarter items, ?_, item_contribution_le_quarter item⟩
  rcases category_step_cases (dictGet item "category") with h | h | h
  · right
    simp [item_score_checks, h]
  · right
    simp [item_score_checks, h]
  · left
    simp [item_score_checks, h]

/-- C7 counterexample: an item whose category key is present with value None
has only 3 counted checks — the category check is not counted, contradicting
the claim that presence of the key alone makes it count. -/
theorem category_check_counting_counterexample :
    hasKey null_category_item "category" = true ∧
    (item_score_checks null_category_item).2 = 3 ∧
    (item_score_checks null_category_item).2 ≠ 4 := by
  refine ⟨by decide, by decide, by decide⟩

/-- C7 amended: the category check is counted in an item's denominator iff
the category key is present with a truthy value (so a present-but-None or
present-but-empty category is not counted); the per-item score is the
awarded credit divided by the number of checks so counted. -/
theorem category_check_counting_amended (item : Item) :
    ((item_score_checks item).2 = if category_counted item then 4 else 3) ∧
    item_contribution item = (item_score_checks item).1 / ((item_score_checks item).2 : ℚ) := by
  refine ⟨?_, item_contribution_eq item⟩
  rcases h : dictGet item "category" with _ | v
  · simp [item_score_checks, category_counted, category_step, h]
  · by_cases ht : v.truthy = true
    · simp [item_score_checks, category_counted, category_step, h, ht]
    · simp [item_score_checks, category_counted, category_step, h, ht]

/-- C9: for all item lists the Structural Validator's score lies in the
interval from 0 to 1, and the empty list yields exactly 0, with no failure
possible (the embedding is a total function). -/
theorem structural_validator_range_and_empty (items : List Item) :
    0 ≤ validate_structure_programmatic items ∧
    validate_structure_programmatic items ≤ 1 ∧
    validate_structure_programmatic [] = 0 := by
  refine ⟨validate_nonneg items, ?_, rfl⟩
  exact le_trans (validate_le_quarter items) (by norm_num)

/-- C8: an item with a usable item_name and a registry category scores
strictly higher as a single-item list under the Structural Validator than
the otherwise-identical item whose category is an arbitrary label outside
the registry. -/
theorem valid_category_scores_strictly_higher
    (item1 item2 : Item) (c lbl : String)
    (hname : nameOk item1 = true)
    (hcat1 : dictGet item1 "category" = some (PyValue.pstr c))
    (hc : valid_categories.contains c = true)
    (hcat2 : dictGet item2 "category" = some (PyValue.pstr lbl))
    (hlbl : valid_categories.contains lbl = false)
    (hn : dictGet item2 "item_name" = dictGet item1 "item_name")
    (hq : dictGet item2 "quantity" = dictGet item1 "quantity")
    (hm : dictGet item2 "notes" = dictGet item1 "notes") :
    validate_structure_programmatic [item2] < validate_structure_programmatic [item1] := by
  have hq0 := if_credit_nonneg (optional_text_ok (dictGet item1 "quantity")) ((1:ℚ)/10) (by norm_num)
  have hq1 := if_credit_le (optional_text_ok (dictGet item1 "quantity")) ((1:ℚ)/10) (by norm_num)
  have hm0 := if_credit_nonneg (optional_text_ok (dictGet item1 "notes")) ((1:ℚ)/10) (by norm_num)
  have hm1 := if_credit_le (optional_text_ok (dictGet item1 "notes")) ((1:ℚ)/10) (by norm_num)
  have hcne : c ≠ "" := by
    intro hce
    subst hce
    have hfalse : valid_categories.contains "" = false := by decide
    rw [hfalse] at hc
    exact Bool.noConfusion hc
  have htr1 : (PyValue.pstr c).truthy = true := by
    simp [PyValue.truthy, hcne]
  have hreg1 : category_in_registry (PyValue.pstr c) = true := hc
  have hstep1 : category_step (dictGet item1 "category") = (4/10, 1) := by
    rw [hcat1]
    simp [category_step, htr1, hreg1]
  have hname' : name_value_ok (dictGet item1 "item_name") = true := hname
  rw [validate_single, validate_single, item_contribution_eq, item_contribution_eq]
  by_cases hle : lbl = ""
  · subst hle
    have htr0 : (PyValue.pstr "").truthy = false := by decide
    have hstep2 : category_step (dictGet item2 "category") = (0, 0) := by
      rw [hcat2]
      simp [category_step, htr0]
    simp only [item_score_checks, nameOk, hn, hq, hm, hstep1, hstep2, hname',
      eq_self_iff_true, if_true]
    push_cast
    rw [div_lt_div_iff₀ (by norm_num) (by norm_num)]
    linarith
  · have htr2 : (PyValue.pstr lbl).truthy = true := by
      simp [PyValue.truthy, hle]
    have hreg2 : category_in_registry (PyValue.pstr lbl) = false := hlbl
    have hstep2 : category_step (dictGet item2 "category") = (0, 1) := by
      rw [hcat2]
      simp [category_step, htr2, hreg2]
    simp only [item_score_checks, nameOk, hn, hq, hm, hstep1, hstep2, hname',
      eq_self_iff_true, if_true]
    push_cast
    rw [div_lt_div_iff₀ (by norm_num) (by norm_num)]
    linarith

/-- Single-item list with the registry category of milk_item replaced by a
label outside the registry; all other fields unchanged. -/
def milk_item_bad_category : Item :=
  [("item_name", PyValue.pstr "Buy milk"),
   ("category", PyValue.pstr "misc"),
   ("quantity", PyValue.pstr "2 gallons"),
   ("notes", PyValue.pstr "Prefer organic"),
   ("explanation", PyValue.pstr "Essential dairy product for daily nutrition")]

/-- Witness for C8 at a concrete pair of items. -/
theorem valid_category_scores_strictly_higher_witness :
    nameOk milk_item = true ∧
    dictGet milk_item "category" = some (PyValue.pstr "groceries") ∧
    valid_categories.contains "groceries" = true ∧
    dictGet milk_item_bad_category "category" = some (PyValue.pstr "misc") ∧
    valid_categories.contains "misc" = false ∧
    validate_structure_programmatic [milk_item_bad_category] <
      validate_structure_programmatic [milk_item] := by
  refine ⟨by decide, rfl, by decide, rfl, by decide, ?_⟩
  exact valid_category_scores_strictly_higher milk_item milk_item_bad_category
    "groceries" "misc" (by decide) rfl (by decide) rfl (by decide) rfl rfl rfl

/-- C1: in the base evaluator's evaluate_all the overall passed flag is
exactly the threshold comparison on the overall score, independent of the
individual passed flags; but the tracing evaluator's evaluate_all sets the
overall passed flag to the conjunction of the individual passed flags
instead. At threshold 0 with all three metrics returning the conservative
judge-failure result, the base overall passes with all_passed false, while
the tracing overall reports passed false even though its score clears the
threshold. -/
theorem aggregator_passed_semantics_and_tracing_divergence :
    (∀ (t : ℚ) (r1 r2 r3 : EvaluationResult),
        (evaluate_all_overall t r1 r2 r3).passed =
          decide (t ≤ (evaluate_all_overall t r1 r2 r3).score)) ∧
    (evaluate_all_overall 0 (conservative_result "judge down")
        (conservative_result "judge down") (conservative_result "judge down")).passed = true ∧
    dictGet (evaluate_all_overall 0 (conservative_result "judge down")
        (conservative_result "judge down") (conservative_result "judge down")).details
        "all_passed" = some (PyValue.pbool false) ∧
    (0:ℚ) ≤ (evaluate_all_overall_tracing (conservative_result "judge down")
        (conservative_result "judge down") (conservative_result "judge down")).score ∧
    (evaluate_all_overall_tracing (conservative_result "judge down")
        (conservative_result "judge down") (conservative_result "judge down")).passed = false := by
  refine ⟨fun t r1 r2 r3 => rfl, ?_, rfl, ?_, rfl⟩
  · simp only [evaluate_all_overall, conservative_result]
    norm_num
  · simp only [evaluate_all_overall_tracing, conservative_result]
    norm_num

/-- C4: the base aggregator's overall score is exactly the 0.4 / 0.3 / 0.3
weighted sum of the three metric scores; for metric scores in the unit
interval it never exceeds their maximum nor falls below their minimum, and
the weighted_scores detail maps each metric name to its weight times its
score. -/
theorem aggregator_weighted_score_properties
    (t : ℚ) (r1 r2 r3 : EvaluationResult)
    (h1 : 0 ≤ r1.score) (h1' : r1.score ≤ 1)
    (h2 : 0 ≤ r2.score) (h2' : r2.score ≤ 1)
    (h3 : 0 ≤ r3.score) (h3' : r3.score ≤ 1) :
    (evaluate_all_overall t r1 r2 r3).score =
      (4/10) * r1.score + (3/10) * r2.score + (3/10) * r3.score ∧
    (evaluate_all_overall t r1 r2 r3).score ≤ max r1.score (max r2.score r3.score) ∧
    min r1.score (min r2.score r3.score) ≤ (evaluate_all_overall t r1 r2 r3).score ∧
    dictGet (evaluate_all_overall t r1 r2 r3).details "weighted_scores" =
      some (PyValue.pdict
        [("extraction_accuracy", PyValue.pnum ((4/10) * r1.score)),
         ("structure_compliance", PyValue.pnum ((3/10) * r2.score)),
         ("content_quality", PyValue.pnum ((3/10) * r3.score))]) := by
  have hs : (evaluate_all_overall t r1 r2 r3).score =
      r1.score * (4/10) + r2.score * (3/10) + r3.score * (3/10) := rfl
  refine ⟨by rw [hs]; ring, ?_, ?_, ?_⟩
  · have a1 : r1.score ≤ max r1.score (max r2.score r3.score) := le_max_left _ _
    have a2 : r2.score ≤ max r1.score (max r2.score r3.score) :=
      le_trans (le_max_left _ _) (le_max_right _ _)
    have a3 : r3.score ≤ max r1.score (max r2.score r3.score) :=
      le_trans (le_max_right _ _) (le_max_right _ _)
    rw [hs]
    linarith
  · have a1 : min r1.score (min r2.score r3.score) ≤ r1.score := min_le_left _ _
    have a2 : min r1.score (min r2.score r3.score) ≤ r2.score :=
      le_trans (min_le_right _ _) (min_le_left _ _)
    have a3 : min r1.score (min r2.score r3.score) ≤ r3.score :=
      le_trans (min_le_right _ _) (min_le_right _ _)
    rw [hs]
    linarith
  · simp only [evaluate_all_overall, dictGet, List.find?]
    rw [mul_comm r1.score ((4:ℚ)/10), mul_comm r2.score ((3:ℚ)/10), mul_comm r3.score ((3:ℚ)/10)]
    rfl

/-- Metric result stub used to instantiate aggregator theorems. -/
def stub_result (s : ℚ) : EvaluationResult :=
  { score := s
    passed := true
    confidence := 9/10
    explanation := "stub"
    details := [] }

/-- Witness for C4 at concrete metric scores 1/2, 1/3, 1/4 and threshold
0.7. -/
theorem aggregator_weighted_score_properties_witness :
    (0 ≤ (stub_result (1/2)).score ∧ (stub_result (1/2)).score ≤ 1) ∧
    ((evaluate_all_overall (7/10) (stub_result (1/2)) (stub_result (1/3)) (stub_result (1/4))).score =
        (4/10) * (stub_result (1/2)).score + (3/10) * (stub_result (1/3)).score +
          (3/10) * (stub_result (1/4)).score ∧
      (evaluate_all_overall (7/10) (stub_result (1/2)) (stub_result (1/3)) (stub_result (1/4))).score ≤
        max (stub_result (1/2)).score (max (stub_result (1/3)).score (stub_result (1/4)).score) ∧
      min (stub_result (1/2)).score (min (stub_result (1/3)).score (stub_result (1/4)).score) ≤
        (evaluate_all_overall (7/10) (stub_result (1/2)) (stub_result (1/3)) (stub_result (1/4))).score ∧
      dictGet (evaluate_all_overall (7/10) (stub_result (1/2)) (stub_result (1/3))
          (stub_result (1/4))).details "weighted_scores" =
        some (PyValue.pdict
          [("extraction_accuracy", PyValue.pnum ((4/10) * (stub_result (1/2)).score)),
           ("structure_compliance", PyValue.pnum ((3/10) * (stub_result (1/3)).score)),
           ("content_quality", PyValue.pnum ((3/10) * (stub_result (1/4)).score))])) :=
  ⟨⟨by norm_num [stub_result], by norm_num [stub_result]⟩,
    aggregator_weighted_score_properties (7/10) (stub_result (1/2)) (stub_result (1/3))
      (stub_result (1/4)) (by norm_num [stub_result]) (by norm_num [stub_result])
      (by norm_num [stub_result]) (by norm_num [stub_result]) (by norm_num [stub_result])
      (by norm_num [stub_result])⟩

/-- C10: both aggregators set the overall confidence to the arithmetic mean
of exactly the three metric confidences and record all_passed as the
conjunction of exactly the three metric passed flags. -/
theorem overall_confidence_mean_and_all_passed
    (t : ℚ) (r1 r2 r3 : EvaluationResult) :
    (evaluate_all_overall t r1 r2 r3).confidence =
      (r1.confidence + r2.confidence + r3.confidence) / 3 ∧
    dictGet (evaluate_all_overall t r1 r2 r3).details "all_passed" =
      some (PyValue.pbool (r1.passed && r2.passed && r3.passed)) ∧
    (evaluate_all_overall_tracing r1 r2 r3).confidence =
      (r1.confidence + r2.confidence + r3.confidence) / 3 ∧
    dictGet (evaluate_all_overall_tracing r1 r2 r3).details "all_passed" =
      some (PyValue.pbool (r1.passed && r2.passed && r3.passed)) :=
  ⟨rfl, rfl, rfl, rfl⟩

/-- C5: whenever the judge response parses with score j in the unit
interval, the Structure Compliance evaluator's final score is exactly
0.7 times j plus 0.3 times the Structural Validator's score on the same
items, and the details expose both sub-scores as llm_score and
programmatic_score. -/
theorem structure_compliance_blend
    (t : ℚ) (items : List Item) (result : JObj) (j conf : ℚ) (expl : String)
    (hp : parse_score_conf_expl result (9/10) = Except.ok (j, conf, expl))
    (hj0 : 0 ≤ j) (hj1 : j ≤ 1) :
    (evaluate_structure_compliance t items (Except.ok result)).score =
      (7/10) * j + (3/10) * validate_structure_programmatic items ∧
    dictGet (evaluate_structure_compliance t items (Except.ok result)).details
      "llm_score" = some (PyValue.pnum j) ∧
    dictGet (evaluate_structure_compliance t items (Except.ok result)).details
      "programmatic_score" = some (PyValue.pnum (validate_structure_programmatic items)) := by
  have hev : evaluate_structure_compliance t items (Except.ok result) =
      { score := j * (7/10) + validate_structure_programmatic items * (3/10)
        passed := decide (t ≤ j * (7/10) + validate_structure_programmatic items * (3/10))
        confidence := conf
        explanation := expl
        details :=
          [("structure_issues", j_get_default result "structure_issues" (PyValue.pdict [])),
           ("compliance_summary", j_get_default result "compliance_summary" (PyValue.pdict [])),
           ("category_usage", j_get_default result "category_usage" (PyValue.pdict [])),
           ("programmatic_score", PyValue.pnum (validate_structure_programmatic items)),
           ("llm_score", PyValue.pnum j),
           ("strengths", j_get_default result "strengths" (PyValue.plist [])),
           ("weaknesses", j_get_default result "weaknesses" (PyValue.plist []))] } := by
    simp only [evaluate_structure_compliance, hp]
  rw [hev]
  refine ⟨by ring, ?_, ?_⟩
  · rfl
  · rfl

/-- Judge response stub with score 0.8 and an explanation, used to
instantiate evaluator theorems. -/
def judge_stub : JObj :=
  [("score", PyValue.pnum (8/10)), ("confidence", PyValue.pnum (95/100)),
   ("explanation", PyValue.pstr "ok")]

/-- Witness for C5 on the stub judge response and the milk item. -/
theorem structure_compliance_blend_witness :
    parse_score_conf_expl judge_stub (9/10) = Except.ok (8/10, 95/100, "ok") ∧
    (0:ℚ) ≤ 8/10 ∧ (8:ℚ)/10 ≤ 1 ∧
    ((evaluate_structure_compliance (7/10) [milk_item] (Except.ok judge_stub)).score =
        (7/10) * (8/10) + (3/10) * validate_structure_programmatic [milk_item] ∧
      dictGet (evaluate_structure_compliance (7/10) [milk_item] (Except.ok judge_stub)).details
        "llm_score" = some (PyValue.pnum (8/10)) ∧
      dictGet (evaluate_structure_compliance (7/10) [milk_item] (Except.ok judge_stub)).details
        "programmatic_score" =
          some (PyValue.pnum (validate_structure_programmatic [milk_item]))) :=
  ⟨rfl, by norm_num, by norm_num,
    structure_compliance_blend (7/10) [milk_item] judge_stub (8/10) (95/100) "ok"
      rfl (by norm_num) (by norm_num)⟩

/-- C6: each metric evaluator is a total function of the judge interaction
outcome (so no exception ever reaches the caller), and on any internal
failure — a failed judge call or malformed JSON (the error response), or a
missing or non-numeric required field (a parse failure) — it returns the
conservative result with score 0, passed false, confidence 0, and an
explanation naming the failure. -/
theorem evaluators_conservative_on_failure
    (t : ℚ) (n : Nat) (items : List Item) (result : JObj) (e e2 e3 e4 : String) :
    (evaluate_extraction_accuracy t n (Except.error e) = conservative_result e ∧
     evaluate_structure_compliance t items (Except.error e) = conservative_result e ∧
     evaluate_content_quality t (Except.error e) = conservative_result e) ∧
    (parse_score_conf_expl result (8/10) = Except.error e2 →
      evaluate_extraction_accuracy t n (Except.ok result) = conservative_result e2) ∧
    (parse_score_conf_expl result (9/10) = Except.error e3 →
      evaluate_structure_compliance t items (Except.ok result) = conservative_result e3) ∧
    (parse_score_conf_expl result (8/10) = Except.error e2 →
      evaluate_content_quality t (Except.ok result) = conservative_result e2) ∧
    (∀ s : ℚ × ℚ × String,
      parse_score_conf_expl result (8/10) = Except.ok s →
      content_quality_extras result = Except.error e4 →
      evaluate_content_quality t (Except.ok result) = conservative_result e4) ∧
    (conservative_result e).score = 0 ∧
    (conservative_result e).passed = false ∧
    (conservative_result e).confidence = 0 ∧
    (conservative_result e).explanation = "Evaluation failed: " ++ e := by
  refine ⟨⟨rfl, rfl, rfl⟩, ?_, ?_, ?_, ?_, rfl, rfl, rfl, rfl⟩
  · intro h
    simp only [evaluate_extraction_accuracy, h]
  · intro h
    simp only [evaluate_structure_compliance, h]
  · intro h
    simp only [evaluate_content_quality, h]
  · intro s h1 h2
    obtain ⟨s1, s2, s3⟩ := s
    simp only [evaluate_content_quality, h1, h2]

/-- Witness for C6: the empty judge response object is missing the required
score field, so the evaluator returns the conservative result for the
KeyError. -/
theorem evaluators_conservative_on_failure_witness :
    parse_score_conf_expl [] (8/10) = Except.error "KeyError: score" ∧
    evaluate_extraction_accuracy (7/10) 2 (Except.ok []) =
      conservative_result "KeyError: score" :=
  ⟨rfl,
    (evaluators_conservative_on_failure (7/10) 2 [] [] "x" "KeyError: score" "y" "z").2.1 rfl⟩

end Listify
